import Mathlib

/-!
Verification of the EGSA utility cost/efficiency analysis engine
(src/egsa/utils/egsa_calculator.py) against its specification.

Python `Decimal`/`float` values are modelled as rationals (`ℚ`); the decimal
literals of the source become the corresponding rationals.  Stateful methods
(those that append to a calculator's `calculation_history` or the analyzer's
`analysis_history`) are modelled by explicit state passing: a method of the
Python class `C` that mutates `self` becomes a Lean function `C → args → result × C`.
`datetime.now()` is modelled by threading an explicit `now : ℚ` timestamp.
A Python `KeyError` on a missing dict key is modelled by `Except` with the
`AnalysisError.keyError` constructor.
-/

namespace Egsa

/-- The efficiency rating strings returned by `get_efficiency_rating`
("Excellent" / "Good" / "Average" / "Poor"). -/
inductive EfficiencyRating where
  | excellent
  | good
  | average
  | poor
deriving DecidableEq, Repr

/-- One entry of a calculator's `calculation_history`: the dict
`{'usage': ..., 'rate': ..., 'cost': ..., 'timestamp': ...}` appended by
`UtilityCalculator.calculate_cost`. -/
structure CostResult where
  usage : ℚ
  rate : ℚ
  cost : ℚ
  timestamp : ℚ
deriving DecidableEq, Repr

/-- Base class `UtilityCalculator`: a rate per unit and the calculation log. -/
structure UtilityCalculator where
  rate_per_unit : ℚ
  calculation_history : List CostResult
deriving DecidableEq, Repr

/-- `UtilityCalculator.__init__(rate_per_unit)`: sets the rate, empty log. -/
def UtilityCalculator.mk0 (rate_per_unit : ℚ) : UtilityCalculator :=
  ⟨rate_per_unit, []⟩

/-- `UtilityCalculator.calculate_cost(usage)`: `cost = Decimal(str(usage)) * self.rate_per_unit`,
appends a log entry, returns the cost.  No rounding and no sign check occur in the source. -/
def UtilityCalculator.calculate_cost (c : UtilityCalculator) (usage now : ℚ) :
    ℚ × UtilityCalculator :=
  let cost := usage * c.rate_per_unit
  (cost,
    { c with calculation_history :=
        c.calculation_history ++ [⟨usage, c.rate_per_unit, cost, now⟩] })

/-- The ratio computed by `get_efficiency_rating`:
`usage / benchmark if benchmark > 0 else 1`. -/
def UtilityCalculator.ratio (usage benchmark : ℚ) : ℚ :=
  if benchmark > 0 then usage / benchmark else 1

/-- `UtilityCalculator.get_efficiency_rating(usage, benchmark)`: threshold chain on
the usage/benchmark ratio.  Pure (does not read or write calculator state). -/
def UtilityCalculator.get_efficiency_rating (usage benchmark : ℚ) : EfficiencyRating :=
  let r := UtilityCalculator.ratio usage benchmark
  if r ≤ 8/10 then .excellent
  else if r ≤ 1 then .good
  else if r ≤ 12/10 then .average
  else .poor

/-- Python 3 `round` to an integer: round half to even (banker's rounding). -/
def roundHalfEven (q : ℚ) : ℤ :=
  let f := ⌊q⌋
  let r := q - f
  if r < 1/2 then f
  else if 1/2 < r then f + 1
  else if f % 2 = 0 then f else f + 1

/-! ### Variant calculators (ElectricityCalculator, GasCalculator, SteamCalculator,
AirConditioningCalculator).  Each Python subclass carries only construction-time
constants beyond the base state; those constants are never reassigned, so they
are modelled as definitions rather than mutable fields. -/

/-- `ElectricityCalculator`: subclass of `UtilityCalculator`. -/
structure ElectricityCalculator where
  base : UtilityCalculator
deriving DecidableEq, Repr

/-- `ElectricityCalculator.__init__(rate_per_kwh=0.12)` with the default rate. -/
def ElectricityCalculator.init : ElectricityCalculator :=
  ⟨UtilityCalculator.mk0 (12/100)⟩

/-- `self.peak_hours = (17, 21)` — 5 PM to 9 PM. -/
def ElectricityCalculator.peak_hours : ℤ × ℤ := (17, 21)

/-- `self.peak_rate_multiplier = 1.5`. -/
def ElectricityCalculator.peak_rate_multiplier : ℚ := 3/2

/-- Inherited `calculate_cost` acting on the subclass state. -/
def ElectricityCalculator.calculate_cost (c : ElectricityCalculator) (usage now : ℚ) :
    ℚ × ElectricityCalculator :=
  let (cost, b) := c.base.calculate_cost usage now
  (cost, ⟨b⟩)

/-- `ElectricityCalculator.calculate_peak_cost(usage, hour)`: plain cost, multiplied
by the peak multiplier when `peak_hours[0] <= hour <= peak_hours[1]`. -/
def ElectricityCalculator.calculate_peak_cost (c : ElectricityCalculator)
    (usage : ℚ) (hour : ℤ) (now : ℚ) : ℚ × ElectricityCalculator :=
  let (base_cost, c') := c.calculate_cost usage now
  if ElectricityCalculator.peak_hours.1 ≤ hour ∧ hour ≤ ElectricityCalculator.peak_hours.2 then
    (base_cost * ElectricityCalculator.peak_rate_multiplier, c')
  else
    (base_cost, c')

/-- `ElectricityCalculator.estimate_carbon_footprint(kwh_usage)`: `kwh_usage * 0.5`. -/
def ElectricityCalculator.estimate_carbon_footprint (kwh_usage : ℚ) : ℚ :=
  kwh_usage * (1/2)

/-- `ElectricityCalculator.recommend_savings(monthly_usage).values()` in dict
insertion order: the high-usage tip (if `> 500`), the moderate-usage tip
(if `> 300`), then always the general tip. -/
def ElectricityCalculator.recommend_savings (monthly_usage : ℚ) : List String :=
  (if monthly_usage > 500 then ["Consider LED lighting and energy-efficient appliances"] else [])
    ++ (if monthly_usage > 300 then ["Use programmable thermostats"] else [])
    ++ ["Unplug devices when not in use"]

/-- `GasCalculator`: subclass of `UtilityCalculator`. -/
structure GasCalculator where
  base : UtilityCalculator
deriving DecidableEq, Repr

/-- `GasCalculator.__init__(rate_per_cubic_meter=0.45)` with the default rate. -/
def GasCalculator.init : GasCalculator :=
  ⟨UtilityCalculator.mk0 (45/100)⟩

/-- `self.heating_efficiency = 0.85`. -/
def GasCalculator.heating_efficiency : ℚ := 85/100

/-- Inherited `calculate_cost` acting on the subclass state. -/
def GasCalculator.calculate_cost (c : GasCalculator) (usage now : ℚ) :
    ℚ × GasCalculator :=
  let (cost, b) := c.base.calculate_cost usage now
  (cost, ⟨b⟩)

/-- `GasCalculator.calculate_heating_cost(cubic_meters, outdoor_temp)`:
`temp_factor = max(0.5, (20 - outdoor_temp) / 20)`; returns `base_cost * temp_factor`. -/
def GasCalculator.calculate_heating_cost (c : GasCalculator)
    (cubic_meters outdoor_temp now : ℚ) : ℚ × GasCalculator :=
  let (base_cost, c') := c.calculate_cost cubic_meters now
  let temp_factor := max (1/2 : ℚ) ((20 - outdoor_temp) / 20)
  (base_cost * temp_factor, c')

/-- `SteamCalculator`: subclass of `UtilityCalculator`. -/
structure SteamCalculator where
  base : UtilityCalculator
deriving DecidableEq, Repr

/-- `SteamCalculator.__init__(rate_per_pound=0.025)` with the default rate. -/
def SteamCalculator.init : SteamCalculator :=
  ⟨UtilityCalculator.mk0 (25/1000)⟩

/-- Inherited `calculate_cost` acting on the subclass state. -/
def SteamCalculator.calculate_cost (c : SteamCalculator) (usage now : ℚ) :
    ℚ × SteamCalculator :=
  let (cost, b) := c.base.calculate_cost usage now
  (cost, ⟨b⟩)

/-- `AirConditioningCalculator`: subclass of `UtilityCalculator`. -/
structure AirConditioningCalculator where
  base : UtilityCalculator
deriving DecidableEq, Repr

/-- `AirConditioningCalculator.__init__(rate_per_kwh=0.15)` with the default rate. -/
def AirConditioningCalculator.init : AirConditioningCalculator :=
  ⟨UtilityCalculator.mk0 (15/100)⟩

/-- Inherited `calculate_cost` acting on the subclass state. -/
def AirConditioningCalculator.calculate_cost (c : AirConditioningCalculator)
    (usage now : ℚ) : ℚ × AirConditioningCalculator :=
  let (cost, b) := c.base.calculate_cost usage now
  (cost, ⟨b⟩)

/-- `AirConditioningCalculator.calculate_cooling_cost(kwh_usage, outdoor_temp)`:
`temp_factor = max(0.8, (outdoor_temp - 70) / 30 + 1)`; returns `base_cost * temp_factor`. -/
def AirConditioningCalculator.calculate_cooling_cost (c : AirConditioningCalculator)
    (kwh_usage outdoor_temp now : ℚ) : ℚ × AirConditioningCalculator :=
  let (base_cost, c') := c.calculate_cost kwh_usage now
  let temp_factor := max (4/5 : ℚ) ((outdoor_temp - 70) / 30 + 1)
  (base_cost * temp_factor, c')

/-- Modelled from the spec: rounding a cost to currency precision
(2 decimal places), as in the spec sentence
"cost = usage × base_rate, rounded to currency precision (2 decimal places)".
This definition exists only to compare the spec's claimed behaviour with the
code's; the source performs no such rounding. -/
def round2_spec (q : ℚ) : ℚ :=
  (roundHalfEven (q * 100) : ℚ) / 100

/-! ### EGSAAnalyzer -/

/-- One analysis record (the dict built by `comprehensive_analysis` and appended
to `analysis_history`).  The Python dicts `efficiency_scores` and
`environmental_impact` preserve insertion order, hence association lists. -/
structure Analysis where
  timestamp : ℚ
  total_cost : ℚ
  efficiency_scores : List (String × EfficiencyRating)
  recommendations : List String
  environmental_impact : List (String × ℚ)
deriving DecidableEq, Repr

/-- One utility's entry in the `utility_data` mapping passed to
`comprehensive_analysis`.  `usage = none` models the `'usage'` key being absent
(which raises `KeyError` in the source); `benchmark` and `outdoor_temp` are read
with `dict.get` defaults and so are `Option`s as well. -/
structure UtilityEntry where
  usage : Option ℚ
  benchmark : Option ℚ
  outdoor_temp : Option ℚ
deriving DecidableEq, Repr

/-- The `utility_data` mapping: `none` models the utility key being absent. -/
structure UtilityData where
  electricity : Option UtilityEntry
  gas : Option UtilityEntry
  steam : Option UtilityEntry
  air_conditioning : Option UtilityEntry
deriving DecidableEq, Repr

/-- The error a `comprehensive_analysis` call can raise: a Python `KeyError`
on a required field (the spec's `MalformedSample`). -/
inductive AnalysisError where
  | keyError (field : String)
deriving DecidableEq, Repr

/-- `EGSAAnalyzer`: the four calculators plus the analysis history. -/
structure EGSAAnalyzer where
  electricity : ElectricityCalculator
  gas : GasCalculator
  steam : SteamCalculator
  air_conditioning : AirConditioningCalculator
  analysis_history : List Analysis
deriving DecidableEq, Repr

/-- `EGSAAnalyzer.__init__`: default-constructed calculators, empty history. -/
def EGSAAnalyzer.init : EGSAAnalyzer :=
  ⟨ElectricityCalculator.init, GasCalculator.init, SteamCalculator.init,
   AirConditioningCalculator.init, []⟩

/-- The running state of a `comprehensive_analysis` call: the analyzer (whose
calculators are mutated by the cost methods) and the local accumulators
`total_cost`, `efficiency_scores`, `recommendations`, `environmental_impact`. -/
structure AccState where
  analyzer : EGSAAnalyzer
  total_cost : ℚ
  efficiency_scores : List (String × EfficiencyRating)
  recommendations : List String
  environmental_impact : List (String × ℚ)
deriving DecidableEq, Repr

/-- The `if 'electricity' in utility_data` block of `comprehensive_analysis`:
cost via the inherited `calculate_cost` (NOT `calculate_peak_cost`; no hour is
read), efficiency rating against `get('benchmark', 400)`, carbon footprint,
savings recommendations.  A missing `'usage'` key raises `KeyError` before the
cost method runs. -/
def elecStep (s : AccState) (d : UtilityData) (now : ℚ) : Except AnalysisError AccState :=
  match d.electricity with
  | none => .ok s
  | some e =>
    match e.usage with
    | none => .error (.keyError "usage")
    | some u =>
      let (cost, ec) := s.analyzer.electricity.calculate_cost u now
      .ok { analyzer := { s.analyzer with electricity := ec },
            total_cost := s.total_cost + cost,
            efficiency_scores := s.efficiency_scores ++
              [("electricity", UtilityCalculator.get_efficiency_rating u (e.benchmark.getD 400))],
            recommendations := s.recommendations ++ ElectricityCalculator.recommend_savings u,
            environmental_impact := s.environmental_impact ++
              [("co2_kg", ElectricityCalculator.estimate_carbon_footprint u)] }

/-- The `if 'gas' in utility_data` block: heating cost with
`get('outdoor_temp', 20)`, rating against `get('benchmark', 100)`. -/
def gasStep (s : AccState) (d : UtilityData) (now : ℚ) : Except AnalysisError AccState :=
  match d.gas with
  | none => .ok s
  | some g =>
    match g.usage with
    | none => .error (.keyError "usage")
    | some u =>
      let (cost, gc) := s.analyzer.gas.calculate_heating_cost u (g.outdoor_temp.getD 20) now
      .ok { s with
            analyzer := { s.analyzer with gas := gc },
            total_cost := s.total_cost + cost,
            efficiency_scores := s.efficiency_scores ++
              [("gas", UtilityCalculator.get_efficiency_rating u (g.benchmark.getD 100))] }

/-- The `if 'steam' in utility_data` block: plain cost, rating against
`get('benchmark', 50)`. -/
def steamStep (s : AccState) (d : UtilityData) (now : ℚ) : Except AnalysisError AccState :=
  match d.steam with
  | none => .ok s
  | some st =>
    match st.usage with
    | none => .error (.keyError "usage")
    | some u =>
      let (cost, sc) := s.analyzer.steam.calculate_cost u now
      .ok { s with
            analyzer := { s.analyzer with steam := sc },
            total_cost := s.total_cost + cost,
            efficiency_scores := s.efficiency_scores ++
              [("steam", UtilityCalculator.get_efficiency_rating u (st.benchmark.getD 50))] }

/-- The `if 'air_conditioning' in utility_data` block: cooling cost with
`get('outdoor_temp', 75)`, rating against `get('benchmark', 200)`. -/
def acStep (s : AccState) (d : UtilityData) (now : ℚ) : Except AnalysisError AccState :=
  match d.air_conditioning with
  | none => .ok s
  | some a =>
    match a.usage with
    | none => .error (.keyError "usage")
    | some u =>
      let (cost, cc) := s.analyzer.air_conditioning.calculate_cooling_cost u
        (a.outdoor_temp.getD 75) now
      .ok { s with
            analyzer := { s.analyzer with air_conditioning := cc },
            total_cost := s.total_cost + cost,
            efficiency_scores := s.efficiency_scores ++
              [("air_conditioning", UtilityCalculator.get_efficiency_rating u (a.benchmark.getD 200))] }

/-- `EGSAAnalyzer.comprehensive_analysis(utility_data)`: runs the four utility
blocks in source order, then assembles the analysis record and appends it to
`analysis_history`.  A `KeyError` propagates immediately (Python leaves earlier
calculator-log mutations in place, hence the partially updated analyzer is
returned alongside the error; `analysis_history` is only touched on success). -/
def EGSAAnalyzer.comprehensive_analysis (a : EGSAAnalyzer) (d : UtilityData) (now : ℚ) :
    Except AnalysisError Analysis × EGSAAnalyzer :=
  let s0 : AccState := ⟨a, 0, [], [], []⟩
  match elecStep s0 d now with
  | .error err => (.error err, s0.analyzer)
  | .ok s1 =>
    match gasStep s1 d now with
    | .error err => (.error err, s1.analyzer)
    | .ok s2 =>
      match steamStep s2 d now with
      | .error err => (.error err, s2.analyzer)
      | .ok s3 =>
        match acStep s3 d now with
        | .error err => (.error err, s3.analyzer)
        | .ok s4 =>
          let analysis : Analysis :=
            ⟨now, s4.total_cost, s4.efficiency_scores, s4.recommendations,
             s4.environmental_impact⟩
          (.ok analysis,
           { s4.analyzer with
             analysis_history := s4.analyzer.analysis_history ++ [analysis] })

/-! ### Report generation -/

/-- `{'Excellent': 4, 'Good': 3, 'Average': 2, 'Poor': 1}[score]`. -/
def scoreValue : EfficiencyRating → ℕ
  | .excellent => 4
  | .good => 3
  | .average => 2
  | .poor => 1

/-- `{4: 'Excellent', 3: 'Good', 2: 'Average', 1: 'Poor'}[v]`:
`none` models the `KeyError` on any other key. -/
def valueScore : ℤ → Option EfficiencyRating
  | 4 => some .excellent
  | 3 => some .good
  | 2 => some .average
  | 1 => some .poor
  | _ => none

/-- One update of the `efficiency_totals` / `efficiency_counts` dicts (held as a
single insertion-ordered association list from utility to (total, count)). -/
def updateTotals (acc : List (String × ℕ × ℕ)) (utility : String) (v : ℕ) :
    List (String × ℕ × ℕ) :=
  match acc with
  | [] => [(utility, v, 1)]
  | (w, t, c) :: rest =>
    if w = utility then (w, t + v, c + 1) :: rest
    else (w, t, c) :: updateTotals rest utility v

/-- `EGSAAnalyzer._calculate_average_efficiency(analyses)`: accumulate per-utility
ordinal totals and counts over all records, then map each utility to the rating
whose ordinal is `round(total / count)` (Python `round`, half to even). -/
def calculate_average_efficiency (analyses : List Analysis) :
    List (String × Option EfficiencyRating) :=
  let totals := analyses.foldl
    (fun acc an => an.efficiency_scores.foldl
      (fun acc2 p => updateTotals acc2 p.1 (scoreValue p.2)) acc) []
  totals.map (fun p => (p.1, valueScore (roundHalfEven ((p.2.1 : ℚ) / (p.2.2 : ℚ)))))

/-- `EGSAAnalyzer._calculate_cost_trend(analyses)`: `"Insufficient data"` below 2
records, else compare `analyses[-1]['total_cost']` against
`analyses[0]['total_cost']` scaled by 1.1 / 0.9. -/
def calculate_cost_trend (analyses : List Analysis) : String :=
  if analyses.length < 2 then "Insufficient data"
  else
    let recent_cost := (analyses.getLast?.map Analysis.total_cost).getD 0
    let older_cost := (analyses.head?.map Analysis.total_cost).getD 0
    if older_cost * (11/10) < recent_cost then "Increasing"
    else if recent_cost < older_cost * (9/10) then "Decreasing"
    else "Stable"

/-- The monthly report dict built on the non-empty path of
`generate_monthly_report`.  The `period` label is kept as the raw
(start, end) pair rather than its `strftime` rendering. -/
structure Report where
  period : ℚ × ℚ
  total_cost : ℚ
  average_efficiency : List (String × Option EfficiencyRating)
  total_analyses : ℕ
  cost_trend : String
deriving DecidableEq, Repr

/-- Result of `generate_monthly_report`: either the `{'error': ...}` dict or the
report dict. -/
inductive ReportResult where
  | error (msg : String)
  | report (r : Report)
deriving DecidableEq, Repr

/-- `EGSAAnalyzer.generate_monthly_report(start_date, end_date)`: filter the
history to `start_date <= timestamp <= end_date`; on an empty filter return the
`{'error': 'No data available for the specified period'}` dict, otherwise the
report.  The method reads but never writes analyzer state, so the returned
analyzer is the input analyzer. -/
def EGSAAnalyzer.generate_monthly_report (a : EGSAAnalyzer) (start_date end_date : ℚ) :
    ReportResult × EGSAAnalyzer :=
  let relevant := a.analysis_history.filter
    (fun an => decide (start_date ≤ an.timestamp ∧ an.timestamp ≤ end_date))
  (if relevant.isEmpty then
    .error "No data available for the specified period"
   else
    .report
      { period := (start_date, end_date),
        total_cost := (relevant.map Analysis.total_cost).sum,
        average_efficiency := calculate_average_efficiency relevant,
        total_analyses := relevant.length,
        cost_trend := calculate_cost_trend relevant },
   a)

/-! ### Claim C1 -/

/-- C1 (counterexample): with base rate 0.12 and the non-negative usage 0.1,
`calculate_cost` returns the exact product 0.012 (= 3/250), which differs from
0.012 rounded to currency precision (0.01): the source never rounds to 2 decimal
places. -/
theorem calculate_cost_not_rounded :
    ((UtilityCalculator.mk0 (12/100)).calculate_cost (1/10) 0).1 = 3/250 ∧
    round2_spec ((1/10) * (12/100)) = 1/100 ∧
    ((UtilityCalculator.mk0 (12/100)).calculate_cost (1/10) 0).1 ≠
      round2_spec ((1/10) * (12/100)) := by
  refine ⟨?_, ?_, ?_⟩ <;>
    norm_num [UtilityCalculator.calculate_cost, UtilityCalculator.mk0,
      round2_spec, roundHalfEven]

/-- C1 (amended): for every calculator with base rate `rate_per_unit` and every
usage (non-negative or not), `calculate_cost(usage)` returns exactly
`usage * rate_per_unit`; no rounding to currency precision takes place. -/
theorem calculate_cost_exact_product (c : UtilityCalculator) (usage now : ℚ) :
    (c.calculate_cost usage now).1 = usage * c.rate_per_unit := rfl

/-! ### Claim C5 -/

/-- C5 (counterexample): for the negative usage −1 with base rate 0.12,
`calculate_cost` does not fail: it returns the cost −0.12 and appends an entry
to the calculation log, so the log is not left unchanged. -/
theorem calculate_cost_negative_no_failure :
    ((UtilityCalculator.mk0 (12/100)).calculate_cost (-1) 0).1 = -(12/100) ∧
    ((UtilityCalculator.mk0 (12/100)).calculate_cost (-1) 0).2.calculation_history ≠
      (UtilityCalculator.mk0 (12/100)).calculation_history := by
  refine ⟨?_, ?_⟩ <;>
    norm_num [UtilityCalculator.calculate_cost, UtilityCalculator.mk0]

/-- C5 (amended): `calculate_cost` performs no usage validation: for every usage
`u < 0` it computes the (negative) cost `u * rate_per_unit` normally and appends
a log entry, mutating the calculation log; no `InvalidUsage` failure exists in
the source. -/
theorem calculate_cost_negative_computes (c : UtilityCalculator) (u now : ℚ)
    (h : u < 0) :
    (c.calculate_cost u now).1 = u * c.rate_per_unit ∧
    (c.calculate_cost u now).2.calculation_history =
      c.calculation_history ++ [⟨u, c.rate_per_unit, u * c.rate_per_unit, now⟩] :=
  ⟨rfl, rfl⟩

/-- C5 (witness): the amended claim at calculator rate 0.12, usage −1. -/
theorem calculate_cost_negative_computes_witness :
    (-1 : ℚ) < 0 ∧
    ((UtilityCalculator.mk0 (12/100)).calculate_cost (-1) 0).1 = (-1) * (12/100) ∧
    ((UtilityCalculator.mk0 (12/100)).calculate_cost (-1) 0).2.calculation_history =
      (UtilityCalculator.mk0 (12/100)).calculation_history ++
        [⟨-1, 12/100, (-1) * (12/100), 0⟩] :=
  ⟨by norm_num,
   (calculate_cost_negative_computes (UtilityCalculator.mk0 (12/100)) (-1) 0 (by norm_num)).1,
   (calculate_cost_negative_computes (UtilityCalculator.mk0 (12/100)) (-1) 0 (by norm_num)).2⟩

/-! ### Claim C2 -/

/-- C2 (counterexample): on a fresh analyzer (empty history, hence an empty
filtered slice), `generate_monthly_report` does not return a report with an
`InsufficientData` cost trend: it returns the error dict
`{'error': 'No data available for the specified period'}`. -/
theorem empty_report_error_dict :
    (EGSAAnalyzer.init.generate_monthly_report 0 100).1 =
      ReportResult.error "No data available for the specified period" := rfl

/-- C2 (amended): whenever no record of the history has its timestamp in
`[start_date, end_date]` (in particular over an empty history),
`generate_monthly_report` returns the `'No data available for the specified
period'` error dict — it does not raise, and the analyzer state is unchanged —
rather than a report with an `InsufficientData` cost trend. -/
theorem empty_slice_returns_error (a : EGSAAnalyzer) (s e : ℚ)
    (h : a.analysis_history.filter
      (fun an => decide (s ≤ an.timestamp ∧ an.timestamp ≤ e)) = []) :
    (a.generate_monthly_report s e).1 =
      ReportResult.error "No data available for the specified period" ∧
    (a.generate_monthly_report s e).2 = a := by
  unfold EGSAAnalyzer.generate_monthly_report
  rw [h]
  exact ⟨rfl, rfl⟩

/-- C2 (witness): the amended claim on a fresh analyzer over the window [0, 100]. -/
theorem empty_slice_returns_error_witness :
    (EGSAAnalyzer.init.analysis_history.filter
      (fun an => decide ((0:ℚ) ≤ an.timestamp ∧ an.timestamp ≤ 100)) = []) ∧
    (EGSAAnalyzer.init.generate_monthly_report 0 100).1 =
      ReportResult.error "No data available for the specified period" ∧
    (EGSAAnalyzer.init.generate_monthly_report 0 100).2 = EGSAAnalyzer.init :=
  ⟨rfl, (empty_slice_returns_error EGSAAnalyzer.init 0 100 rfl).1,
    (empty_slice_returns_error EGSAAnalyzer.init 0 100 rfl).2⟩

/-! ### Claim C10 -/

/-- C10: `generate_monthly_report` is read-only: for every analyzer state and
window it returns the analyzer unchanged — in particular the analysis history
and all four calculators' calculation logs are untouched — and a second call
with the same arguments on the resulting state returns an equal report. -/
theorem generate_monthly_report_read_only (a : EGSAAnalyzer) (s e : ℚ) :
    (a.generate_monthly_report s e).2 = a ∧
    (a.generate_monthly_report s e).2.analysis_history = a.analysis_history ∧
    (a.generate_monthly_report s e).2.electricity.base.calculation_history =
      a.electricity.base.calculation_history ∧
    (a.generate_monthly_report s e).2.gas.base.calculation_history =
      a.gas.base.calculation_history ∧
    (a.generate_monthly_report s e).2.steam.base.calculation_history =
      a.steam.base.calculation_history ∧
    (a.generate_monthly_report s e).2.air_conditioning.base.calculation_history =
      a.air_conditioning.base.calculation_history ∧
    ((a.generate_monthly_report s e).2.generate_monthly_report s e).1 =
      (a.generate_monthly_report s e).1 :=
  ⟨rfl, rfl, rfl, rfl, rfl, rfl, rfl⟩

/-! ### Claim C3 -/

/-- C3 (counterexample): an analysis of an electricity sample with usage 100 on a
fresh analyzer adds the plain cost 12 (= 100 × 0.12) to `total_cost`, while the
peak-adjusted cost `calculate_peak_cost(100, hour=18)` is 18: the analyzer does
not use the peak-adjusted electricity cost, and the contributed cost (12) is not
1.5 times the hour-10 value (12). -/
theorem analyzer_ignores_peak_hours :
    (EGSAAnalyzer.init.comprehensive_analysis
        ⟨some ⟨some 100, none, none⟩, none, none, none⟩ 0).1 =
      Except.ok ⟨0, 12, [("electricity", .excellent)],
        ["Unplug devices when not in use"], [("co2_kg", 50)]⟩ ∧
    (EGSAAnalyzer.init.electricity.calculate_peak_cost 100 18 0).1 = 18 ∧
    (EGSAAnalyzer.init.electricity.calculate_peak_cost 100 10 0).1 = 12 ∧
    (12 : ℚ) ≠ (3/2) * 12 := by
  refine ⟨?_, ?_, ?_, by norm_num⟩
  · norm_num [EGSAAnalyzer.comprehensive_analysis, elecStep, gasStep, steamStep, acStep,
      EGSAAnalyzer.init, ElectricityCalculator.init, GasCalculator.init, SteamCalculator.init,
      AirConditioningCalculator.init, UtilityCalculator.mk0,
      ElectricityCalculator.calculate_cost, UtilityCalculator.calculate_cost,
      ElectricityCalculator.recommend_savings, ElectricityCalculator.estimate_carbon_footprint,
      UtilityCalculator.get_efficiency_rating, UtilityCalculator.ratio]
  all_goals
    norm_num [EGSAAnalyzer.init, ElectricityCalculator.init, UtilityCalculator.mk0,
      ElectricityCalculator.calculate_peak_cost, ElectricityCalculator.calculate_cost,
      UtilityCalculator.calculate_cost, ElectricityCalculator.peak_hours,
      ElectricityCalculator.peak_rate_multiplier]

/-- C3 (amended): `calculate_peak_cost` itself does satisfy the 1.5× relation —
for every electricity calculator and usage, the cost at hour 18 (inside the
default 17–21 peak window) is 1.5 times the cost at hour 10 — but
`comprehensive_analysis` never calls it: the electricity cost added to
`total_cost` is the plain, hour-independent `calculate_cost` product. -/
theorem peak_ratio_holds_but_analyzer_uses_plain_cost (a : EGSAAnalyzer)
    (u now : ℚ) (bm temp : Option ℚ) :
    (a.electricity.calculate_peak_cost u 18 now).1 =
      (3/2) * (a.electricity.calculate_peak_cost u 10 now).1 ∧
    ((a.comprehensive_analysis ⟨some ⟨some u, bm, temp⟩, none, none, none⟩ now).1.map
        Analysis.total_cost) = Except.ok (u * a.electricity.base.rate_per_unit) := by
  constructor
  · simp only [ElectricityCalculator.calculate_peak_cost,
      ElectricityCalculator.calculate_cost, UtilityCalculator.calculate_cost,
      ElectricityCalculator.peak_hours, ElectricityCalculator.peak_rate_multiplier]
    norm_num
    ring
  · simp [EGSAAnalyzer.comprehensive_analysis, elecStep, gasStep, steamStep, acStep,
      ElectricityCalculator.calculate_cost, UtilityCalculator.calculate_cost,
      Except.map]

/-! ### Claim C6 -/

/-- C6: for every gas calculator with non-negative rate and every non-negative
usage, `calculate_heating_cost` returns `base_cost * max(0.5, (20 - outdoor_temp)/20)`;
it is monotonically non-increasing in the outdoor temperature, at freezing-or-colder
temperatures it is at least the base (unadjusted) cost, and for temperatures ≥ 40
the factor is clipped at 0.5. -/
theorem gas_heating_cost_properties (c : GasCalculator) (u t t' now : ℚ)
    (hu : 0 ≤ u) (hr : 0 ≤ c.base.rate_per_unit) :
    (c.calculate_heating_cost u t now).1 =
      (u * c.base.rate_per_unit) * max (1/2 : ℚ) ((20 - t) / 20) ∧
    (t' ≤ t → (c.calculate_heating_cost u t now).1 ≤ (c.calculate_heating_cost u t' now).1) ∧
    (t ≤ 0 → u * c.base.rate_per_unit ≤ (c.calculate_heating_cost u t now).1) ∧
    (40 ≤ t → (c.calculate_heating_cost u t now).1 = (u * c.base.rate_per_unit) * (1/2)) := by
  have hcost : ∀ s : ℚ, (c.calculate_heating_cost u s now).1 =
      (u * c.base.rate_per_unit) * max (1/2 : ℚ) ((20 - s) / 20) := fun s => rfl
  have hbase : 0 ≤ u * c.base.rate_per_unit := mul_nonneg hu hr
  refine ⟨hcost t, ?_, ?_, ?_⟩
  · intro h
    rw [hcost, hcost]
    refine mul_le_mul_of_nonneg_left ?_ hbase
    refine max_le_max le_rfl ?_
    exact (div_le_div_iff_of_pos_right (by norm_num : (0:ℚ) < 20)).mpr (by linarith)
  · intro h
    rw [hcost]
    have h1 : (1:ℚ) ≤ (20 - t) / 20 := by
      rw [le_div_iff₀ (by norm_num : (0:ℚ) < 20)]
      linarith
    exact le_mul_of_one_le_right hbase (le_trans h1 (le_max_right _ _))
  · intro h
    rw [hcost]
    have h1 : (20 - t) / 20 ≤ (1/2 : ℚ) := by
      rw [div_le_iff₀ (by norm_num : (0:ℚ) < 20)]
      linarith
    rw [max_eq_left h1]

/-- C6 (witness): the default gas calculator, usage 2, temperatures 40 and 0. -/
theorem gas_heating_cost_properties_witness :
    (0:ℚ) ≤ 2 ∧ (0:ℚ) ≤ GasCalculator.init.base.rate_per_unit ∧
    (GasCalculator.init.calculate_heating_cost 2 40 0).1 =
      (2 * GasCalculator.init.base.rate_per_unit) * (1/2) :=
  ⟨by norm_num, by norm_num [GasCalculator.init, UtilityCalculator.mk0],
   (gas_heating_cost_properties GasCalculator.init 2 40 0 0 (by norm_num)
      (by norm_num [GasCalculator.init, UtilityCalculator.mk0])).2.2.2 (by norm_num)⟩

/-! ### Claim C7 -/

/-- Unfolding lemma: `get_efficiency_rating` is the threshold chain applied to
the ratio. -/
theorem get_efficiency_rating_eq (u b : ℚ) :
    UtilityCalculator.get_efficiency_rating u b =
      (if UtilityCalculator.ratio u b ≤ 8/10 then .excellent
       else if UtilityCalculator.ratio u b ≤ 1 then .good
       else if UtilityCalculator.ratio u b ≤ 12/10 then .average
       else .poor) := rfl

/-- Helper: a non-positive benchmark makes the ratio 1, landing on "Good". -/
theorem rating_default_good (u b : ℚ) (hb : b ≤ 0) :
    UtilityCalculator.get_efficiency_rating u b = .good := by
  have hr : UtilityCalculator.ratio u b = 1 := by
    unfold UtilityCalculator.ratio
    rw [if_neg (not_lt.mpr hb)]
  rw [get_efficiency_rating_eq, hr]
  norm_num

/-- Helper: the rating's ordinal value is monotone non-increasing in the ratio. -/
theorem scoreValue_rating_antitone (u b u' b' : ℚ)
    (h : UtilityCalculator.ratio u b ≤ UtilityCalculator.ratio u' b') :
    scoreValue (UtilityCalculator.get_efficiency_rating u' b') ≤
      scoreValue (UtilityCalculator.get_efficiency_rating u b) := by
  rw [get_efficiency_rating_eq, get_efficiency_rating_eq]
  split_ifs <;> simp [scoreValue] <;> linarith

/-- C7: `get_efficiency_rating` returns Excellent iff the usage/benchmark ratio is
≤ 0.8, Good iff it lies in (0.8, 1], Average iff in (1, 1.2], Poor iff > 1.2;
a benchmark ≤ 0 is treated as ratio 1 and yields Good; and the rating's ordinal
is monotone non-increasing in the ratio. -/
theorem get_efficiency_rating_thresholds (u b : ℚ) :
    (UtilityCalculator.get_efficiency_rating u b = .excellent ↔
      UtilityCalculator.ratio u b ≤ 8/10) ∧
    (UtilityCalculator.get_efficiency_rating u b = .good ↔
      (8/10 < UtilityCalculator.ratio u b ∧ UtilityCalculator.ratio u b ≤ 1)) ∧
    (UtilityCalculator.get_efficiency_rating u b = .average ↔
      (1 < UtilityCalculator.ratio u b ∧ UtilityCalculator.ratio u b ≤ 12/10)) ∧
    (UtilityCalculator.get_efficiency_rating u b = .poor ↔
      12/10 < UtilityCalculator.ratio u b) ∧
    (b ≤ 0 → UtilityCalculator.get_efficiency_rating u b = .good) ∧
    (∀ u' b', UtilityCalculator.ratio u b ≤ UtilityCalculator.ratio u' b' →
      scoreValue (UtilityCalculator.get_efficiency_rating u' b') ≤
        scoreValue (UtilityCalculator.get_efficiency_rating u b)) := by
  refine ⟨?_, ?_, ?_, ?_, fun hb => rating_default_good u b hb,
    fun u' b' h => scoreValue_rating_antitone u b u' b' h⟩
  all_goals
    rw [get_efficiency_rating_eq]
    split_ifs with h1 h2 h3 <;>
      constructor <;> intro hx <;>
        first
          | rfl
          | linarith
          | (exact absurd hx (by decide))
          | (exact ⟨by linarith, by linarith⟩)

/-- C7 (witness): ratio 0.25 gives Excellent; benchmark 0 gives Good. -/
theorem get_efficiency_rating_thresholds_witness :
    UtilityCalculator.get_efficiency_rating 100 400 = .excellent ∧
    UtilityCalculator.get_efficiency_rating 100 0 = .good :=
  ⟨(get_efficiency_rating_thresholds 100 400).1.mpr (by norm_num [UtilityCalculator.ratio]),
   (get_efficiency_rating_thresholds 100 0).2.2.2.2.1 (by norm_num)⟩

/-! ### Claim C8 -/

/-- C8: `_calculate_cost_trend` returns "Insufficient data" for fewer than 2
records; otherwise, with `older` the first and `recent` the last record's
`total_cost` in slice order, it returns "Increasing" iff `recent > older * 1.1`
and (for non-negative older cost) "Decreasing" iff `recent < older * 0.9`,
"Stable" otherwise; in particular costs 100 then 115 give "Increasing" and
100 then 95 give "Stable". -/
theorem cost_trend_spec (analyses : List Analysis) :
    (analyses.length < 2 → calculate_cost_trend analyses = "Insufficient data") ∧
    (∀ older recent : ℚ,
      2 ≤ analyses.length →
      analyses.head?.map Analysis.total_cost = some older →
      analyses.getLast?.map Analysis.total_cost = some recent →
      ((calculate_cost_trend analyses = "Increasing" ↔ older * (11/10) < recent) ∧
       (0 ≤ older →
         ((calculate_cost_trend analyses = "Decreasing" ↔ recent < older * (9/10)) ∧
          (calculate_cost_trend analyses = "Stable" ↔
            (¬ older * (11/10) < recent ∧ ¬ recent < older * (9/10))))))) ∧
    calculate_cost_trend [⟨0, 100, [], [], []⟩, ⟨1, 115, [], [], []⟩] = "Increasing" ∧
    calculate_cost_trend [⟨0, 100, [], [], []⟩, ⟨1, 95, [], [], []⟩] = "Stable" := by
  refine ⟨?_, ?_, ?_, ?_⟩
  · intro h
    unfold calculate_cost_trend
    rw [if_pos h]
  · intro older recent h2 hh hl
    unfold calculate_cost_trend
    rw [if_neg (not_lt.mpr h2)]
    simp only [hh, hl, Option.getD_some]
    refine ⟨?_, fun h0 => ⟨?_, ?_⟩⟩ <;> split_ifs with hi hd <;> simp_all <;> linarith
  · norm_num [calculate_cost_trend, List.getLast?]
  · norm_num [calculate_cost_trend, List.getLast?]

/-- C8 (witness): a single record is insufficient data, and the two concrete
two-record slices from the claim. -/
theorem cost_trend_spec_witness :
    ([⟨0, (100:ℚ), [], [], []⟩] : List Analysis).length < 2 ∧
    calculate_cost_trend [⟨0, 100, [], [], []⟩] = "Insufficient data" :=
  ⟨by norm_num, (cost_trend_spec [⟨0, 100, [], [], []⟩]).1 (by norm_num)⟩

/-! ### Claim C9 -/

/-- Helper: an entry is present but lacks the required usage field. -/
def entryMissingUsage : Option UtilityEntry → Bool
  | some e => e.usage.isNone
  | none => false

/-- Helper: some present utility entry of the mapping lacks its usage field. -/
def hasMissingUsage (d : UtilityData) : Bool :=
  entryMissingUsage d.electricity || entryMissingUsage d.gas ||
    entryMissingUsage d.steam || entryMissingUsage d.air_conditioning

/-- Helper: a missing electricity usage makes the electricity block raise. -/
theorem elecStep_missing (s : AccState) (d : UtilityData) (now : ℚ)
    (h : entryMissingUsage d.electricity = true) :
    elecStep s d now = .error (.keyError "usage") := by
  rcases hd : d.electricity with _ | e
  · rw [hd] at h
    simp [entryMissingUsage] at h
  · rw [hd] at h
    simp only [entryMissingUsage, Option.isNone_iff_eq_none] at h
    simp [elecStep, hd, h]

/-- Helper: the electricity block raises only on a missing usage field. -/
theorem elecStep_error_only_missing (s : AccState) (d : UtilityData) (now : ℚ)
    (err : AnalysisError) (h : elecStep s d now = .error err) :
    entryMissingUsage d.electricity = true := by
  rcases hd : d.electricity with _ | e
  · simp [elecStep, hd] at h
  · rcases hu : e.usage with _ | u
    · simp [entryMissingUsage, hd, hu]
    · simp [elecStep, hd, hu] at h

/-- Helper: a successful electricity block leaves the analysis history alone. -/
theorem elecStep_history (s s' : AccState) (d : UtilityData) (now : ℚ)
    (h : elecStep s d now = .ok s') :
    s'.analyzer.analysis_history = s.analyzer.analysis_history := by
  rcases hd : d.electricity with _ | e
  · simp [elecStep, hd] at h
    subst h
    rfl
  · rcases hu : e.usage with _ | u
    · simp [elecStep, hd, hu] at h
    · simp [elecStep, hd, hu] at h
      subst h
      rfl

/-- Helper: a missing gas usage makes the gas block raise. -/
theorem gasStep_missing (s : AccState) (d : UtilityData) (now : ℚ)
    (h : entryMissingUsage d.gas = true) :
    gasStep s d now = .error (.keyError "usage") := by
  rcases hd : d.gas with _ | e
  · rw [hd] at h
    simp [entryMissingUsage] at h
  · rw [hd] at h
    simp only [entryMissingUsage, Option.isNone_iff_eq_none] at h
    simp [gasStep, hd, h]

/-- Helper: the gas block raises only on a missing usage field. -/
theorem gasStep_error_only_missing (s : AccState) (d : UtilityData) (now : ℚ)
    (err : AnalysisError) (h : gasStep s d now = .error err) :
    entryMissingUsage d.gas = true := by
  rcases hd : d.gas with _ | e
  · simp [gasStep, hd] at h
  · rcases hu : e.usage with _ | u
    · simp [entryMissingUsage, hd, hu]
    · simp [gasStep, hd, hu] at h

/-- Helper: a successful gas block leaves the analysis history alone. -/
theorem gasStep_history (s s' : AccState) (d : UtilityData) (now : ℚ)
    (h : gasStep s d now = .ok s') :
    s'.analyzer.analysis_history = s.analyzer.analysis_history := by
  rcases hd : d.gas with _ | e
  · simp [gasStep, hd] at h
    subst h
    rfl
  · rcases hu : e.usage with _ | u
    · simp [gasStep, hd, hu] at h
    · simp [gasStep, hd, hu] at h
      subst h
      rfl

/-- Helper: a missing steam usage makes the steam block raise. -/
theorem steamStep_missing (s : AccState) (d : UtilityData) (now : ℚ)
    (h : entryMissingUsage d.steam = true) :
    steamStep s d now = .error (.keyError "usage") := by
  rcases hd : d.steam with _ | e
  · rw [hd] at h
    simp [entryMissingUsage] at h
  · rw [hd] at h
    simp only [entryMissingUsage, Option.isNone_iff_eq_none] at h
    simp [steamStep, hd, h]

/-- Helper: the steam block raises only on a missing usage field. -/
theorem steamStep_error_only_missing (s : AccState) (d : UtilityData) (now : ℚ)
    (err : AnalysisError) (h : steamStep s d now = .error err) :
    entryMissingUsage d.steam = true := by
  rcases hd : d.steam with _ | e
  · simp [steamStep, hd] at h
  · rcases hu : e.usage with _ | u
    · simp [entryMissingUsage, hd, hu]
    · simp [steamStep, hd, hu] at h

/-- Helper: a successful steam block leaves the analysis history alone. -/
theorem steamStep_history (s s' : AccState) (d : UtilityData) (now : ℚ)
    (h : steamStep s d now = .ok s') :
    s'.analyzer.analysis_history = s.analyzer.analysis_history := by
  rcases hd : d.steam with _ | e
  · simp [steamStep, hd] at h
    subst h
    rfl
  · rcases hu : e.usage with _ | u
    · simp [steamStep, hd, hu] at h
    · simp [steamStep, hd, hu] at h
      subst h
      rfl

/-- Helper: a missing air-conditioning usage makes that block raise. -/
theorem acStep_missing (s : AccState) (d : UtilityData) (now : ℚ)
    (h : entryMissingUsage d.air_conditioning = true) :
    acStep s d now = .error (.keyError "usage") := by
  rcases hd : d.air_conditioning with _ | e
  · rw [hd] at h
    simp [entryMissingUsage] at h
  · rw [hd] at h
    simp only [entryMissingUsage, Option.isNone_iff_eq_none] at h
    simp [acStep, hd, h]

/-- Helper: the air-conditioning block raises only on a missing usage field. -/
theorem acStep_error_only_missing (s : AccState) (d : UtilityData) (now : ℚ)
    (err : AnalysisError) (h : acStep s d now = .error err) :
    entryMissingUsage d.air_conditioning = true := by
  rcases hd : d.air_conditioning with _ | e
  · simp [acStep, hd] at h
  · rcases hu : e.usage with _ | u
    · simp [entryMissingUsage, hd, hu]
    · simp [acStep, hd, hu] at h

/-- Helper: a successful air-conditioning block leaves the analysis history alone. -/
theorem acStep_history (s s' : AccState) (d : UtilityData) (now : ℚ)
    (h : acStep s d now = .ok s') :
    s'.analyzer.analysis_history = s.analyzer.analysis_history := by
  rcases hd : d.air_conditioning with _ | e
  · simp [acStep, hd] at h
    subst h
    rfl
  · rcases hu : e.usage with _ | u
    · simp [acStep, hd, hu] at h
    · simp [acStep, hd, hu] at h
      subst h
      rfl

/-- C9: if any utility entry present in the mapping lacks its required usage
field, the whole `comprehensive_analysis` call fails with the `KeyError`
(the spec's `MalformedSample`) atomically: no analysis record is produced
(the result is the error) and nothing is appended to `analysis_history`. -/
theorem comprehensive_analysis_malformed_atomic (a : EGSAAnalyzer) (d : UtilityData)
    (now : ℚ) (h : hasMissingUsage d = true) :
    (a.comprehensive_analysis d now).1 = .error (.keyError "usage") ∧
    (a.comprehensive_analysis d now).2.analysis_history = a.analysis_history := by
  simp only [EGSAAnalyzer.comprehensive_analysis]
  by_cases he : entryMissingUsage d.electricity = true
  · rw [elecStep_missing ⟨a, 0, [], [], []⟩ d now he]
    exact ⟨rfl, rfl⟩
  · rw [Bool.not_eq_true] at he
    rcases hs1 : elecStep ⟨a, 0, [], [], []⟩ d now with err | s1
    · exact absurd (elecStep_error_only_missing _ _ _ _ hs1) (by simp [he])
    · have hh1 := elecStep_history _ _ _ _ hs1
      simp only [hs1]
      by_cases hg : entryMissingUsage d.gas = true
      · rw [gasStep_missing s1 d now hg]
        exact ⟨rfl, hh1⟩
      · rw [Bool.not_eq_true] at hg
        rcases hs2 : gasStep s1 d now with err | s2
        · exact absurd (gasStep_error_only_missing _ _ _ _ hs2) (by simp [hg])
        · have hh2 := gasStep_history _ _ _ _ hs2
          simp only [hs2]
          by_cases hst : entryMissingUsage d.steam = true
          · rw [steamStep_missing s2 d now hst]
            exact ⟨rfl, hh2.trans hh1⟩
          · rw [Bool.not_eq_true] at hst
            rcases hs3 : steamStep s2 d now with err | s3
            · exact absurd (steamStep_error_only_missing _ _ _ _ hs3) (by simp [hst])
            · have hh3 := steamStep_history _ _ _ _ hs3
              simp only [hs3]
              by_cases hac : entryMissingUsage d.air_conditioning = true
              · rw [acStep_missing s3 d now hac]
                exact ⟨rfl, (hh3.trans hh2).trans hh1⟩
              · exfalso
                rw [Bool.not_eq_true] at hac
                simp [hasMissingUsage, he, hg, hst, hac] at h

/-- C9 (witness): a mapping whose electricity entry lacks the usage field, on a
fresh analyzer: the call errors and the history stays empty. -/
theorem comprehensive_analysis_malformed_atomic_witness :
    hasMissingUsage ⟨some ⟨none, none, none⟩, none, none, none⟩ = true ∧
    (EGSAAnalyzer.init.comprehensive_analysis
        ⟨some ⟨none, none, none⟩, none, none, none⟩ 0).1 =
      .error (.keyError "usage") ∧
    (EGSAAnalyzer.init.comprehensive_analysis
        ⟨some ⟨none, none, none⟩, none, none, none⟩ 0).2.analysis_history =
      EGSAAnalyzer.init.analysis_history :=
  ⟨rfl,
   (comprehensive_analysis_malformed_atomic EGSAAnalyzer.init
      ⟨some ⟨none, none, none⟩, none, none, none⟩ 0 rfl).1,
   (comprehensive_analysis_malformed_atomic EGSAAnalyzer.init
      ⟨some ⟨none, none, none⟩, none, none, none⟩ 0 rfl).2⟩

/-! ### Claim C4 -/

/-- Helper (statement vocabulary): the ordinal values recorded for utility `u`
in one list of (utility, rating) pairs, in order. -/
def scoresOf (u : String) (ps : List (String × EfficiencyRating)) : List ℕ :=
  ps.filterMap (fun p => if p.1 = u then some (scoreValue p.2) else none)

/-- Helper (statement vocabulary): the ordinal values utility `u` received
across the efficiency scores of all records, in record order. -/
def utilityScores (u : String) (analyses : List Analysis) : List ℕ :=
  scoresOf u (analyses.map Analysis.efficiency_scores).flatten

/-- Helper: lookup of a utility in the totals/counts association list. -/
def findTotals (u : String) : List (String × ℕ × ℕ) → Option (ℕ × ℕ)
  | [] => none
  | (w, t, c) :: rest => if w = u then some (t, c) else findTotals u rest

/-- Helper: merging a batch of ordinal scores into an optional (total, count). -/
def mergeTC : Option (ℕ × ℕ) → List ℕ → Option (ℕ × ℕ)
  | o, [] => o
  | none, l => some (l.sum, l.length)
  | some (t, c), l => some (t + l.sum, c + l.length)

/-- Helper: `scoresOf` on a matching head pair. -/
theorem scoresOf_cons_self (u : String) (r : EfficiencyRating)
    (tl : List (String × EfficiencyRating)) :
    scoresOf u ((u, r) :: tl) = scoreValue r :: scoresOf u tl := by
  simp [scoresOf]

/-- Helper: `scoresOf` on a non-matching head pair. -/
theorem scoresOf_cons_ne (u w : String) (r : EfficiencyRating)
    (tl : List (String × EfficiencyRating)) (h : ¬ w = u) :
    scoresOf u ((w, r) :: tl) = scoresOf u tl := by
  simp [scoresOf, h]

/-- Helper: how one `updateTotals` call changes a `findTotals` lookup. -/
theorem findTotals_updateTotals (acc : List (String × ℕ × ℕ)) (u w : String) (v : ℕ) :
    findTotals u (updateTotals acc w v) =
      if w = u then
        (match findTotals u acc with
         | none => some (v, 1)
         | some (t, c) => some (t + v, c + 1))
      else findTotals u acc := by
  induction acc with
  | nil =>
    by_cases hw : w = u <;> simp [updateTotals, findTotals, hw]
  | cons hd tl ih =>
    obtain ⟨x, t, c⟩ := hd
    by_cases hxw : x = w
    · subst hxw
      by_cases hxu : x = u <;> simp [updateTotals, findTotals, hxu]
    · by_cases hxu : x = u
      · subst hxu
        have hwu : ¬ w = x := fun hc => hxw hc.symm
        simp [updateTotals, findTotals, hxw, hwu]
      · simp [updateTotals, findTotals, hxw, hxu, ih]

/-- Helper: the totals fold over a pair list computes, per utility, the sum and
count of the ordinals the utility received. -/
theorem findTotals_foldl (ps : List (String × EfficiencyRating)) (u : String)
    (init : List (String × ℕ × ℕ)) :
    findTotals u (ps.foldl (fun acc p => updateTotals acc p.1 (scoreValue p.2)) init) =
      mergeTC (findTotals u init) (scoresOf u ps) := by
  induction ps generalizing init with
  | nil => simp [scoresOf, mergeTC]
  | cons p tl ih =>
    obtain ⟨w, r⟩ := p
    rw [List.foldl_cons, ih, findTotals_updateTotals]
    by_cases hw : w = u
    · subst hw
      rw [if_pos rfl, scoresOf_cons_self]
      rcases findTotals w init with _ | ⟨t, c⟩ <;>
        rcases hl : scoresOf w tl with _ | ⟨x, l⟩ <;>
          simp [mergeTC] <;> omega
    · rw [if_neg hw, scoresOf_cons_ne _ _ _ _ hw]

/-- Helper: the nested per-record fold equals the fold over the joined scores. -/
theorem totals_fold_join (analyses : List Analysis) (init : List (String × ℕ × ℕ)) :
    analyses.foldl (fun acc an => an.efficiency_scores.foldl
      (fun acc2 p => updateTotals acc2 p.1 (scoreValue p.2)) acc) init =
    ((analyses.map Analysis.efficiency_scores).flatten).foldl
      (fun acc2 p => updateTotals acc2 p.1 (scoreValue p.2)) init := by
  induction analyses generalizing init with
  | nil => rfl
  | cons hd tl ih => simp [List.foldl_append, ih]

/-- Helper: looking up the mapped averages list is mapping over `findTotals`. -/
theorem lookup_map_totals (totals : List (String × ℕ × ℕ)) (u : String) :
    (totals.map (fun p =>
        (p.1, valueScore (roundHalfEven ((p.2.1 : ℚ) / (p.2.2 : ℚ)))))).lookup u =
      (findTotals u totals).map
        (fun tc => valueScore (roundHalfEven ((tc.1 : ℚ) / (tc.2 : ℚ)))) := by
  induction totals with
  | nil => rfl
  | cons hd tl ih =>
    obtain ⟨w, t, c⟩ := hd
    by_cases hw : w = u
    · subst hw
      simp [List.lookup, findTotals]
    · have hw' : ¬ u = w := fun hc => hw hc.symm
      have hbeq : (u == w) = false := beq_eq_false_iff_ne.mpr hw'
      simp [List.lookup, findTotals, hw, hbeq, ih]

/-- C4 (counterexample): two records scoring gas as Good (3) and Average (2)
give the mean 2.5; the source's Python `round` rounds half to even, so the
average rating is Average — not Good as the claimed round-half-up convention
would give. -/
theorem average_efficiency_tie_counterexample :
    calculate_average_efficiency
      [⟨0, 0, [("gas", .good)], [], []⟩, ⟨1, 0, [("gas", .average)], [], []⟩] =
      [("gas", some .average)] ∧
    some EfficiencyRating.average ≠ some EfficiencyRating.good := by
  constructor
  · have hr : roundHalfEven ((5:ℚ) / 2) = 2 := by
      have hf : ⌊(5/2 : ℚ)⌋ = 2 := by norm_num
      simp only [roundHalfEven, hf]
      norm_num
    simp [calculate_average_efficiency, updateTotals, scoreValue, hr, valueScore]
  · decide

/-- C4 (amended): in `_calculate_average_efficiency`, for each utility type that
appears in some record, the ratings' ordinal values (Excellent=4, Good=3,
Average=2, Poor=1) are averaged arithmetically over the records that scored
that utility and rounded to the nearest integer with Python's `round`
(ties round half to even), then mapped back to the rating; in particular a mean
of 2.5 maps to Average, not Good. -/
theorem average_efficiency_half_even_mean (analyses : List Analysis) (u : String)
    (h : utilityScores u analyses ≠ []) :
    (calculate_average_efficiency analyses).lookup u =
      some (valueScore (roundHalfEven
        (((utilityScores u analyses).sum : ℚ) /
          ((utilityScores u analyses).length : ℚ)))) := by
  simp only [calculate_average_efficiency]
  rw [lookup_map_totals, totals_fold_join, findTotals_foldl]
  have hscores : scoresOf u (analyses.map Analysis.efficiency_scores).flatten =
      utilityScores u analyses := rfl
  rw [hscores]
  rcases hl : utilityScores u analyses with _ | ⟨x, l⟩
  · exact absurd hl h
  · simp [mergeTC, findTotals]

/-- C4 (witness): the amended claim on the two concrete gas records with mean 2.5. -/
theorem average_efficiency_half_even_mean_witness :
    utilityScores "gas"
      [⟨0, 0, [("gas", EfficiencyRating.good)], [], []⟩,
       ⟨1, 0, [("gas", EfficiencyRating.average)], [], []⟩] ≠ [] ∧
    (calculate_average_efficiency
      [⟨0, 0, [("gas", EfficiencyRating.good)], [], []⟩,
       ⟨1, 0, [("gas", EfficiencyRating.average)], [], []⟩]).lookup "gas" =
      some (valueScore (roundHalfEven
        (((utilityScores "gas"
            [⟨0, 0, [("gas", EfficiencyRating.good)], [], []⟩,
             ⟨1, 0, [("gas", EfficiencyRating.average)], [], []⟩]).sum : ℚ) /
          ((utilityScores "gas"
            [⟨0, 0, [("gas", EfficiencyRating.good)], [], []⟩,
             ⟨1, 0, [("gas", EfficiencyRating.average)], [], []⟩]).length : ℚ)))) :=
  ⟨by decide,
   average_efficiency_half_even_mean
     [⟨0, 0, [("gas", EfficiencyRating.good)], [], []⟩,
      ⟨1, 0, [("gas", EfficiencyRating.average)], [], []⟩] "gas" (by decide)⟩

end Egsa
